import Mathlib

/-!
Shallow embedding of the two tutorial programs of this repository
(`python_debug_logging.py` and `selenium_setup_guide.py`) and proofs of the
specification's claims about them.

The embedding translates the Python source into executable Lean definitions:
Python `int` becomes `Int`, the `float` sales accumulator is idealised as `ℚ`,
exceptions become `Except`/`Option` values, and mutable objects become explicit
state passing.  External collaborators (the Selenium driver, the filesystem
clock) are modelled as parameters describing their observable behaviour.
-/

namespace Logging

/-- The five levels of the Python `logging` module, used throughout
`python_debug_logging.py` (lines 58-62, 85-93, 137-159). -/
inductive Level where
  | debug
  | info
  | warning
  | error
  | critical
deriving DecidableEq, Repr

/-- The numeric value CPython assigns to each level
(`logging.DEBUG = 10`, `INFO = 20`, `WARNING = 30`, `ERROR = 40`,
`CRITICAL = 50`); all level comparisons in the library are on these numbers. -/
def Level.toNat : Level → Nat
  | .debug => 10
  | .info => 20
  | .warning => 30
  | .error => 40
  | .critical => 50

/-- Comparison of levels by their numeric values. -/
def Level.le (a b : Level) : Bool := a.toNat ≤ b.toNat

/-- The two kinds of handler attached in `python_debug_logging.py`:
`StreamHandler` (console) and `FileHandler`. -/
inductive SinkKind where
  | console
  | file
deriving DecidableEq, Repr

/-- A configured handler: its kind and its minimum level
(`handler.setLevel(...)`, lines 89, 93, 144, 159). -/
structure Sink where
  kind : SinkKind
  minLevel : Level
deriving DecidableEq, Repr

/-- A named logger as configured by the source: its own level
(`logger.setLevel(...)`) and its ordered handler list. -/
structure PyLogger where
  level : Level
  handlers : List Sink
deriving DecidableEq, Repr

/-- CPython delivery rule for a logger's own handler: a record at level `L`
reaches handler `s` iff the logger is enabled for `L`
(`L.toNat ≥ logger.level.toNat`) and the handler's threshold admits it
(`L.toNat ≥ s.minLevel.toNat`). -/
def delivers (lg : PyLogger) (L : Level) (s : Sink) : Bool :=
  lg.level.le L && s.minLevel.le L

/-- The console handler installed by `AppLogger.__init__`
(lines 143-150): `StreamHandler(sys.stdout)` with level `INFO`. -/
def consoleSink : Sink := ⟨.console, .info⟩

/-- The file handler installed by `AppLogger.__init__` when `log_to_file`
(lines 158-164): `FileHandler(log_file, encoding='utf-8')` with level
`DEBUG`. -/
def fileSink : Sink := ⟨.file, .debug⟩

/-- The handler list `AppLogger.__init__` leaves on the logger
(lines 139-164): clear the existing handlers, add the console handler, and,
when `log_to_file`, add the file handler.  `prev` is whatever handler list the
logger had before construction. -/
def appLoggerHandlers (prev : List Sink) (log_to_file : Bool) : List Sink :=
  let cleared : List Sink := []
  let withConsole := cleared ++ [consoleSink]
  if log_to_file then withConsole ++ [fileSink] else withConsole

/-- The logger `AppLogger("...", log_to_file=True)` configures:
`setLevel(DEBUG)` (line 137) and the clear-then-add handler list. -/
def appLogger : PyLogger := ⟨.debug, appLoggerHandlers [] true⟩

/-- The registry `logging.getLogger` maintains — one logger per name —
modelled as the map from names to handler lists. -/
abbrev Registry := String → List Sink

/-- Effect of one `AppLogger.__init__(name, log_to_file)` call on the
registry: the named logger's handlers are cleared and rebuilt
(lines 136-164); every other logger is untouched. -/
def appLoggerInit (reg : Registry) (name : String) (log_to_file : Bool) :
    Registry :=
  fun n => if n = name then appLoggerHandlers (reg name) log_to_file else reg n

/-- Running a whole sequence of constructions `(name, log_to_file)` against
the registry. -/
def runInits (reg : Registry) (calls : List (String × Bool)) : Registry :=
  calls.foldl (fun r c => appLoggerInit r c.1 c.2) reg

end Logging

namespace Files

/-- The conventional log directory `Path("logs")`
(`python_debug_logging.py` lines 77, 154). -/
def log_dir : String := "logs"

/-- Semantics of `Path.mkdir(exist_ok=True)` on a filesystem modelled as the
list of existing directories: creates the directory when absent, succeeds
silently when it already exists (lines 78, 155). -/
def mkdirExistOk (dirs : List String) (d : String) : List String :=
  if d ∈ dirs then dirs else d :: dirs

/-- The `/` path-join of `pathlib`. -/
def pathJoin (dir file : String) : String := dir ++ "/" ++ file

/-- The f-string `f"{name}_{...strftime...}.log"` naming the log file by
logger name plus date/time stamp (lines 81, 156); the stamp produced by
`datetime.now().strftime(...)` is an external input. -/
def logFileName (name stamp : String) : String :=
  name ++ "_" ++ stamp ++ ".log"

/-- The full path `log_dir / f"{name}_{stamp}.log"`. -/
def logFilePath (name stamp : String) : String :=
  pathJoin log_dir (logFileName name stamp)

/-- The encoding passed to `FileHandler` (lines 88, 158). -/
def fileHandlerEncoding : String := "utf-8"

/-- A `StreamHandler`/`FileHandler` emits one formatted record followed by
the terminator `"\n"`. -/
def emitRecord (formatted : String) : String := formatted ++ "\n"

/-- The text a file handler appends for a sequence of formatted records:
one terminated emit after another. -/
def fileContents : List String → String
  | [] => ""
  | r :: rest => emitRecord r ++ fileContents rest

/-- Number of newline characters in a string: the line count of a
newline-terminated text. -/
def newlineCount (s : String) : Nat := s.toList.count '\n'

end Files

namespace Shop

/-- The state of `DaifukuShop` (`python_debug_logging.py` lines 255-259):
`self.stock = 0` and `self.sales = 0.0` at construction.  Python's `int` is
`Int`; the `float` sales accumulator is idealised as `ℚ`. -/
structure DaifukuShop where
  stock : Int
  sales : ℚ
deriving DecidableEq, Repr

/-- State left by `DaifukuShop.__init__`: the shop opens with no stock and
no sales. -/
def DaifukuShop.init : DaifukuShop := ⟨0, 0⟩

/-- Body of `make_daifuku` (lines 263-271), without the decorator line:
reject `count <= 0` with the sentinel `False` and no state change, otherwise
add `count` to the stock and return `True`. -/
def make_daifuku (s : DaifukuShop) (count : Int) : Bool × DaifukuShop :=
  if count ≤ 0 then (false, s)
  else (true, { s with stock := s.stock + count })

/-- Body of `sell` (lines 274-288), without the decorator line: reject
`count <= 0` and insufficient stock (`self.stock < count`) with the sentinel
`False` and no state change, otherwise remove `count` from stock and add
`count * price` to sales. -/
def sell (s : DaifukuShop) (count : Int) (price : ℚ) : Bool × DaifukuShop :=
  if count ≤ 0 then (false, s)
  else if s.stock < count then (false, s)
  else (true, { s with stock := s.stock - count,
                       sales := s.sales + count * price })

/-- The function `log_function_call` (lines 227-245) is a decorator
FACTORY: it takes a
`logger` and returns the one-parameter function `decorator(func)`.  In the
class body (lines 262, 273) it is applied directly to the method, so the
class attribute `make_daifuku` (resp. `sell`) is `decorator` itself, a
function of exactly one parameter.  A bound-method call `shop.m(a₁, ..., aₖ)`
passes `1 + k` positional arguments to that function; Python raises
`TypeError` whenever the arity does not match.  This models that call. -/
def decoratedMethodCall (userArgs : Nat) : Except String Unit :=
  if 1 + userArgs = 1 then Except.ok ()
  else Except.error
    "TypeError: decorator() takes 1 positional argument but more were given"

/-- One caller operation on the shop, carrying the arguments of the call. -/
inductive Op where
  | make (count : Int)
  | sellOp (count : Int) (price : ℚ)
deriving Repr

/-- Running one operation against the shop state (discarding the returned
`bool`, as the demo `demo_shop` does). -/
def step (s : DaifukuShop) : Op → DaifukuShop
  | .make c => (make_daifuku s c).2
  | .sellOp c p => (sell s c p).2

/-- Running a caller sequence from a given state. -/
def run (s : DaifukuShop) (ops : List Op) : DaifukuShop :=
  ops.foldl step s

/-- The price an operation carries (`0` for `make_daifuku`, which has no
price argument). -/
def Op.price : Op → ℚ
  | .make _ => 0
  | .sellOp _ p => p

end Shop

namespace Facade

open Logging

/-- Modelled from the spec: the behaviour of one sink during one log call.
The never-raise handling of a sink failure lives in the standard `logging`
library (`Handler.emit` / `Logger.callHandlers`), to which `AppLogger`'s
methods (`python_debug_logging.py` lines 166-184) delegate; that library
code is not part of `src/`, so it is modelled from the spec's words.
`fails` says whether this sink's formatting or I/O raises on this record. -/
structure SinkState where
  minLevel : Level
  fails : Bool
deriving DecidableEq, Repr

/-- Observable outcome of a log call at one sink: either the record was
delivered to the sink, or the sink failed and a best-effort diagnostic was
written to the fallback sink on its behalf. -/
inductive Out where
  | delivered (s : SinkState)
  | fallbackDiagnostic (s : SinkState)
deriving DecidableEq, Repr

/-- Modelled from the spec: the raw emit of one sink, which raises exactly
when the sink's formatting or I/O fails on this record. -/
def rawEmit (s : SinkState) : Except Unit Out :=
  if s.fails then Except.error () else Except.ok (Out.delivered s)

/-- Modelled from the spec: the handler loop of a log call at level `L`.
Each sink whose minimum level admits the record is attempted; a raising emit
is caught and converted into a fallback diagnostic, and the loop continues
with the remaining sinks.  An uncaught exception would surface as
`Except.error`. -/
def logCall (L : Level) : List SinkState → Except Unit (List Out)
  | [] => Except.ok []
  | s :: rest =>
    let here : Except Unit (List Out) :=
      if s.minLevel.le L then
        match rawEmit s with
        | Except.ok o => Except.ok [o]
        | Except.error _ => Except.ok [Out.fallbackDiagnostic s]
      else Except.ok []
    match here, logCall L rest with
    | Except.ok h, Except.ok t => Except.ok (h ++ t)
    | Except.error e, _ => Except.error e
    | _, Except.error e => Except.error e

end Facade

namespace Selenium

/-- A fake remote handle (the WebDriver object `setup_driver_with_options`
returns): `id` distinguishes handles, `quitThrows` says whether calling
`driver.quit()` on it raises (an already-invalid handle). -/
structure Handle where
  id : Nat
  quitThrows : Bool
deriving DecidableEq, Repr

/-- Observable effects on the external world performed by the session
methods of `selenium_setup_guide.py`. -/
inductive Eff where
  | acquire (id : Nat)
  | quitCall (id : Nat)
  | remoteSearch (id : Nat) (keyword : String)
  | screenshotCall (id : Nat) (filename : String)
deriving DecidableEq, Repr

/-- The exceptions the session methods can raise:
`sessionNotActive` is the `ValueError("ブラウザが起動していません")` of
lines 242 and 276 (the spec's `SessionNotActiveError`); `remoteFailure` is
an exception raised by the remote driver and re-raised after logging;
`setupFailure` is `setup_driver_with_options` raising (lines 120-122). -/
inductive SErr where
  | sessionNotActive
  | remoteFailure
  | setupFailure
deriving DecidableEq, Repr

/-- State of a `WebAutomation` object: the `self.driver` field, which is
`None` while Uninitialized or Closed and holds the handle while Active. -/
structure Session where
  driver : Option Handle
deriving DecidableEq, Repr

/-- Result of one method call on the object: the exception it raised (if
any), the object state after the call, and the effects it performed. -/
structure MResult where
  err : Option SErr
  post : Session
  trace : List Eff
deriving DecidableEq, Repr

/-- State left by `WebAutomation.__init__` (lines 218-221):
`self.driver = None`. -/
def WebAutomation.init : Session := ⟨none⟩

/-- Method `WebAutomation.start` (lines 223-226): unconditionally
`self.driver = setup_driver_with_options()`; there is no already-started
check.  `setup` is the provisioning collaborator's outcome: `Except.ok h`
when it returns handle `h`, `Except.error ()` when it raises (in which case
the assignment never runs and the exception propagates). -/
def start (setup : Except Unit Handle) (s : Session) : MResult :=
  match setup with
  | Except.error _ => ⟨some SErr.setupFailure, s, []⟩
  | Except.ok h => ⟨none, ⟨some h⟩, [Eff.acquire h.id]⟩

/-- Method `WebAutomation.stop` (lines 228-233): if `self.driver` is set,
call `driver.quit()` and then set `self.driver = None`; otherwise do
nothing.  There is no try/except around `quit()`: a raising `quit()`
propagates and the assignment `self.driver = None` never runs. -/
def stop (s : Session) : MResult :=
  match s.driver with
  | none => ⟨none, s, []⟩
  | some h =>
    if h.quitThrows then ⟨some SErr.remoteFailure, s, [Eff.quitCall h.id]⟩
    else ⟨none, ⟨none⟩, [Eff.quitCall h.id]⟩

/-- Method `WebAutomation.search_daifuku_recipe` (lines 235-267): raise
`ValueError` when `self.driver` is falsy, before touching the remote;
otherwise drive the remote (`get`, `find_element`, `send_keys`,
`find_elements`), re-raising any exception the remote raises
(`remoteFails`).  `self.driver` is never modified. -/
def search_daifuku_recipe (remoteFails : Bool) (keyword : String)
    (s : Session) : MResult :=
  match s.driver with
  | none => ⟨some SErr.sessionNotActive, s, []⟩
  | some h =>
    if remoteFails then
      ⟨some SErr.remoteFailure, s, [Eff.remoteSearch h.id keyword]⟩
    else ⟨none, s, [Eff.remoteSearch h.id keyword]⟩

/-- Method `WebAutomation.take_screenshot` (lines 269-284): raise
`ValueError` when `self.driver` is falsy, before touching the remote;
otherwise `driver.save_screenshot(filename)`, re-raising any exception.
`self.driver` is never modified. -/
def take_screenshot (remoteFails : Bool) (filename : String)
    (s : Session) : MResult :=
  match s.driver with
  | none => ⟨some SErr.sessionNotActive, s, []⟩
  | some h =>
    if remoteFails then
      ⟨some SErr.remoteFailure, s, [Eff.screenshotCall h.id filename]⟩
    else ⟨none, s, [Eff.screenshotCall h.id filename]⟩

/-- One action call of the `main()` try-block (lines 336-337), with the
remote outcome it will observe. -/
inductive Act where
  | search (remoteFails : Bool) (keyword : String)
  | shot (remoteFails : Bool) (filename : String)
deriving DecidableEq, Repr

/-- Dispatch of one action call. -/
def runAct (s : Session) : Act → MResult
  | Act.search f k => search_daifuku_recipe f k s
  | Act.shot f n => take_screenshot f n s

/-- The try-block body: run the actions in order, stopping at the first
raised exception. -/
def runBody (s : Session) : List Act → MResult
  | [] => ⟨none, s, []⟩
  | a :: rest =>
    let r := runAct s a
    match r.err with
    | some e => ⟨some e, r.post, r.trace⟩
    | none =>
      let r2 := runBody r.post rest
      ⟨r2.err, r2.post, r.trace ++ r2.trace⟩

/-- Python `finally` semantics for exceptions: an exception raised by the
`finally` clause replaces the pending one; otherwise the pending exception
(if any) propagates. -/
def finallyErr (bodyErr finErr : Option SErr) : Option SErr :=
  match finErr with
  | some e => some e
  | none => bodyErr

/-- The scoped frame of `main()` method 3 (lines 332-340): construct the
object, then `try:` `start()` and the actions, `finally:` `stop()`. -/
def mainFrame (setup : Except Unit Handle) (acts : List Act) : MResult :=
  let r1 := start setup WebAutomation.init
  match r1.err with
  | some e =>
    let r3 := stop r1.post
    ⟨finallyErr (some e) r3.err, r3.post, r1.trace ++ r3.trace⟩
  | none =>
    let r2 := runBody r1.post acts
    let r3 := stop r2.post
    ⟨finallyErr r2.err r3.err, r3.post, r1.trace ++ r2.trace ++ r3.trace⟩

/-- Test whether an effect is a `quit()` call on the handle with this id. -/
def Eff.isQuit (id : Nat) : Eff → Bool
  | Eff.quitCall i => i == id
  | _ => false

/-- Number of `quit()` calls on the handle with this id in an effect trace:
the release count observed by a fake remote handle. -/
def quitCount (tr : List Eff) (id : Nat) : Nat :=
  tr.countP (Eff.isQuit id)

end Selenium

open Logging Files Shop Facade Selenium

/-- C1: for the logger configured by `AppLogger` (console sink at minimum
INFO, file sink at minimum DEBUG, logger level DEBUG), a record at level `L`
is delivered to a configured sink `S` iff `L ≥ S.minLevel`, under the total
ordering DEBUG < INFO < WARNING < ERROR < CRITICAL; in particular a DEBUG
record reaches the file sink and not the console sink, and a CRITICAL record
reaches both. -/
theorem C1_delivery_iff_min_level :
    (Level.debug.toNat < Level.info.toNat ∧
     Level.info.toNat < Level.warning.toNat ∧
     Level.warning.toNat < Level.error.toNat ∧
     Level.error.toNat < Level.critical.toNat) ∧
    (∀ (L : Level) (s : Logging.Sink), s ∈ appLogger.handlers →
      (delivers appLogger L s = true ↔ s.minLevel.le L = true)) ∧
    delivers appLogger Level.debug fileSink = true ∧
    delivers appLogger Level.debug consoleSink = false ∧
    delivers appLogger Level.critical fileSink = true ∧
    delivers appLogger Level.critical consoleSink = true := by
  refine ⟨by decide, ?_, by decide, by decide, by decide, by decide⟩
  intro L s hs
  simp [appLogger, appLoggerHandlers, consoleSink, fileSink] at hs
  rcases hs with h | h <;> subst h <;> cases L <;> decide

/-- C1 witness: the iff instantiated at the console sink and level WARNING. -/
theorem C1_delivery_iff_min_level_witness :
    delivers appLogger Level.warning consoleSink = true ↔
      consoleSink.minLevel.le Level.warning = true :=
  C1_delivery_iff_min_level.2.1 Level.warning consoleSink (by decide)

/-- C6: after any construction history, one more `AppLogger(name, b)` leaves
the registry entry for `name` with exactly the sinks of that most recent
construction — one console sink, plus one file sink iff `b` — with no
duplicates, because construction clears the handler list before adding. -/
theorem C6_no_duplicate_sinks (reg : Registry)
    (calls : List (String × Bool)) (name : String) (b : Bool) :
    runInits reg (calls ++ [(name, b)]) name = appLoggerHandlers [] b ∧
    (runInits reg (calls ++ [(name, b)]) name).count consoleSink = 1 ∧
    (runInits reg (calls ++ [(name, b)]) name).count fileSink
      = (if b then 1 else 0) ∧
    (runInits reg (calls ++ [(name, b)]) name).length
      = (if b then 2 else 1) := by
  have hmain : runInits reg (calls ++ [(name, b)]) name
      = appLoggerHandlers [] b := by
    simp [runInits, List.foldl_append, appLoggerInit, appLoggerHandlers]
  refine ⟨hmain, ?_, ?_, ?_⟩ <;> rw [hmain] <;> cases b <;> decide

/-- Splitting a string append into character lists. -/
theorem string_append_toList (a b : String) :
    (a ++ b).toList = a.toList ++ b.toList := rfl

/-- Newline counting distributes over string append. -/
theorem newlineCount_append (a b : String) :
    newlineCount (a ++ b) = newlineCount a + newlineCount b := by
  simp [newlineCount, string_append_toList, List.count_append]

/-- C9: with file output enabled, the log directory `logs` exists after
`mkdir(exist_ok=True)` whether or not it was already present (and is not
re-created when present), the log file path is `logs/<name>_<stamp>.log`
(logger name plus date/time stamp under the `logs` directory), the file
handler encodes as UTF-8, and the file holds one line per record whenever no
formatted record itself contains a newline. -/
theorem C9_log_file_layout :
    (∀ dirs : List String, log_dir ∈ mkdirExistOk dirs log_dir) ∧
    (∀ dirs : List String, log_dir ∈ dirs → mkdirExistOk dirs log_dir = dirs) ∧
    (∀ name stamp : String,
      logFilePath name stamp = "logs/" ++ (name ++ ("_" ++ (stamp ++ ".log")))) ∧
    fileHandlerEncoding = "utf-8" ∧
    (∀ records : List String, (∀ r ∈ records, '\n' ∉ r.toList) →
      newlineCount (fileContents records) = records.length) := by
  refine ⟨?_, ?_, ?_, rfl, ?_⟩
  · intro dirs
    by_cases h : log_dir ∈ dirs <;> simp [mkdirExistOk, h]
  · intro dirs h
    simp [mkdirExistOk, h]
  · intro name stamp
    simp [logFilePath, pathJoin, logFileName, log_dir, String.append_assoc]
  · intro records hnl
    induction records with
    | nil => rfl
    | cons r rest ih =>
      have hr : '\n' ∉ r.toList := hnl r (List.mem_cons_self r rest)
      have hrest : ∀ x ∈ rest, '\n' ∉ x.toList :=
        fun x hx => hnl x (List.mem_cons_of_mem r hx)
      have hcount : newlineCount (emitRecord r) = 1 := by
        have hdata : (emitRecord r).data = r.data ++ ['\n'] := rfl
        have hr' : '\n' ∉ r.data := by simpa [String.toList] using hr
        simp [newlineCount, String.toList, hdata, List.count_append,
          List.count_eq_zero_of_not_mem hr']
      calc newlineCount (fileContents (r :: rest))
          = newlineCount (emitRecord r) + newlineCount (fileContents rest) :=
            newlineCount_append _ _
        _ = 1 + rest.length := by rw [hcount, ih hrest]
        _ = (r :: rest).length := by simp [Nat.add_comm]

/-- C9 witness: two newline-free records produce a two-line file, and the
path and directory conjuncts instantiated concretely. -/
theorem C9_log_file_layout_witness :
    newlineCount (fileContents ["a [INFO] x", "b [DEBUG] y"]) = 2 ∧
    log_dir ∈ mkdirExistOk [] log_dir :=
  ⟨C9_log_file_layout.2.2.2.2 ["a [INFO] x", "b [DEBUG] y"] (by decide),
   C9_log_file_layout.1 []⟩

/-- C8: where the code diverges from the claim.  The class attributes
`make_daifuku` and `sell` are the bare `decorator` function (the
`@log_function_call` line supplies no logger), so the bound-method call
`shop.make_daifuku(0)` passes two positional arguments to a one-parameter
function and raises `TypeError`; the method BODIES, however, do return the
`False` sentinel with stock and sales unchanged on `count <= 0` and on
insufficient stock, as the claim describes. -/
theorem C8_decorator_arity_vs_sentinel :
    (decoratedMethodCall 1).isOk = false ∧
    (decoratedMethodCall 2).isOk = false ∧
    make_daifuku DaifukuShop.init 0 = (false, DaifukuShop.init) ∧
    make_daifuku DaifukuShop.init (-3) = (false, DaifukuShop.init) ∧
    sell DaifukuShop.init 0 300 = (false, DaifukuShop.init) ∧
    sell ⟨2, 0⟩ 5 300 = (false, (⟨2, 0⟩ : DaifukuShop)) := by
  refine ⟨rfl, rfl, rfl, rfl, rfl, rfl⟩

/-- Invariant preserved by one shop operation: non-negative stock and sales
stay non-negative when the operation's price is non-negative. -/
theorem step_preserves_nonneg (s : DaifukuShop) (op : Op)
    (hst : 0 ≤ s.stock) (hsa : 0 ≤ s.sales) (hp : 0 ≤ op.price) :
    0 ≤ (Shop.step s op).stock ∧ 0 ≤ (Shop.step s op).sales := by
  cases op with
  | make c =>
    by_cases hc : c ≤ 0 <;> simp [Shop.step, make_daifuku, hc]
    · exact ⟨hst, hsa⟩
    · exact ⟨by omega, hsa⟩
  | sellOp c p =>
    by_cases hc : c ≤ 0
    · simpa [Shop.step, sell, hc] using ⟨hst, hsa⟩
    · by_cases hlt : s.stock < c
      · simpa [Shop.step, sell, hc, hlt] using ⟨hst, hsa⟩
      · have hp' : (0 : ℚ) ≤ p := hp
        have hcz : (0 : Int) ≤ c := by omega
        have hc' : (0 : ℚ) ≤ (c : ℚ) := by exact_mod_cast hcz
        refine ⟨?_, ?_⟩ <;> simp [Shop.step, sell, hc, hlt]
        · omega
        · exact add_nonneg hsa (mul_nonneg hc' hp')

/-- Invariant carried along a whole caller sequence. -/
theorem run_preserves_nonneg (ops : List Op) (s : DaifukuShop)
    (hst : 0 ≤ s.stock) (hsa : 0 ≤ s.sales)
    (hp : ∀ op ∈ ops, 0 ≤ op.price) :
    0 ≤ (Shop.run s ops).stock ∧ 0 ≤ (Shop.run s ops).sales := by
  induction ops generalizing s with
  | nil => exact ⟨hst, hsa⟩
  | cons op rest ih =>
    have h1 := step_preserves_nonneg s op hst hsa
      (hp op (List.mem_cons_self op rest))
    exact ih (Shop.step s op) h1.1 h1.2
      (fun x hx => hp x (List.mem_cons_of_mem op hx))

/-- C10: the shop opens with stock `0` and sales `0.0`, and no reachable
sequence of `make_daifuku`/`sell` calls with non-negative prices drives the
stock or the sales below zero: `make_daifuku` only adds positive counts and
`sell` subtracts a count only when `count > 0` and `stock ≥ count`. -/
theorem C10_stock_sales_nonneg (ops : List Op)
    (hp : ∀ op ∈ ops, 0 ≤ op.price) :
    DaifukuShop.init.stock = 0 ∧ DaifukuShop.init.sales = 0 ∧
    0 ≤ (Shop.run DaifukuShop.init ops).stock ∧
    0 ≤ (Shop.run DaifukuShop.init ops).sales := by
  have h := run_preserves_nonneg ops DaifukuShop.init le_rfl le_rfl hp
  exact ⟨rfl, rfl, h.1, h.2⟩

/-- C10 witness: a concrete sequence — make 20, sell 3, sell 5, and an
insufficient-stock sell of 15, as in the source's demo — keeps stock and
sales non-negative. -/
theorem C10_stock_sales_nonneg_witness :
    0 ≤ (Shop.run DaifukuShop.init
      [Op.make 20, Op.sellOp 3 300, Op.sellOp 5 300,
       Op.sellOp 15 300]).stock ∧
    0 ≤ (Shop.run DaifukuShop.init
      [Op.make 20, Op.sellOp 3 300, Op.sellOp 5 300,
       Op.sellOp 15 300]).sales :=
  ⟨(C10_stock_sales_nonneg
      [Op.make 20, Op.sellOp 3 300, Op.sellOp 5 300, Op.sellOp 15 300]
      (by intro op hop; fin_cases hop <;> norm_num [Op.price])).2.2.1,
   (C10_stock_sales_nonneg
      [Op.make 20, Op.sellOp 3 300, Op.sellOp 5 300, Op.sellOp 15 300]
      (by intro op hop; fin_cases hop <;> norm_num [Op.price])).2.2.2⟩

/-- C7: a log call never raises to its caller — the handler loop always
returns `Except.ok`, every admitted sink whose emit does not fail receives
the record, every admitted sink whose emit fails is converted into a
fallback diagnostic (so a failure does not prevent delivery to the
remaining sinks), and sinks below the record's level are skipped. -/
theorem C7_log_call_never_raises (sinks : List SinkState) (L : Level) :
    logCall L sinks = Except.ok
      ((sinks.filter (fun s => s.minLevel.le L)).map
        (fun s => if s.fails then Out.fallbackDiagnostic s
                  else Out.delivered s)) := by
  induction sinks with
  | nil => rfl
  | cons s rest ih =>
    by_cases hL : s.minLevel.le L
    · by_cases hf : s.fails <;>
        simp [logCall, rawEmit, hL, hf, ih, List.filter_cons]
    · simp [logCall, hL, ih, List.filter_cons]

/-- C2: any action method other than `start()` — `search_daifuku_recipe`
and `take_screenshot` — called while the session is not Active
(`self.driver` is `None`, i.e. Uninitialized or Closed after `stop()`)
raises the not-active error before performing any effect on the remote
target, leaving the session state unchanged. -/
theorem C2_not_active_raises (s : Session) (h : s.driver = none)
    (remoteFails : Bool) (keyword filename : String) :
    search_daifuku_recipe remoteFails keyword s
      = ⟨some SErr.sessionNotActive, s, []⟩ ∧
    take_screenshot remoteFails filename s
      = ⟨some SErr.sessionNotActive, s, []⟩ := by
  obtain ⟨d⟩ := s
  simp only [Session.mk.injEq] at h
  subst h
  exact ⟨rfl, rfl⟩

/-- C2 witness: on the fresh (Uninitialized) session and on the session
left Closed by `stop()`, both actions raise and do nothing. -/
theorem C2_not_active_raises_witness :
    search_daifuku_recipe false "大福 レシピ" WebAutomation.init
      = ⟨some SErr.sessionNotActive, WebAutomation.init, []⟩ ∧
    take_screenshot true "screenshot.png" (stop ⟨some ⟨7, false⟩⟩).post
      = ⟨some SErr.sessionNotActive, (stop ⟨some ⟨7, false⟩⟩).post, []⟩ :=
  ⟨(C2_not_active_raises WebAutomation.init rfl false "大福 レシピ" "x").1,
   (C2_not_active_raises (stop ⟨some ⟨7, false⟩⟩).post rfl true "x"
     "screenshot.png").2⟩

/-- Actions never modify the session state and never call `quit()`. -/
theorem runAct_post_trace (s : Session) (a : Act) (id : Nat) :
    (runAct s a).post = s ∧ quitCount (runAct s a).trace id = 0 := by
  cases a <;> rename_i f x <;>
    cases hd : s.driver <;>
    simp [runAct, search_daifuku_recipe, take_screenshot, hd, quitCount,
      Eff.isQuit] <;>
    cases f <;> simp [quitCount, Eff.isQuit]

/-- The try-block body never modifies the session state and never calls
`quit()`. -/
theorem runBody_post_trace (acts : List Act) (s : Session) (id : Nat) :
    (runBody s acts).post = s ∧ quitCount (runBody s acts).trace id = 0 := by
  induction acts generalizing s with
  | nil => exact ⟨rfl, rfl⟩
  | cons a rest ih =>
    have ha := runAct_post_trace s a id
    have hrest := ih s
    have h1 : List.countP (Eff.isQuit id) (runAct s a).trace = 0 := ha.2
    have h2 : List.countP (Eff.isQuit id) (runBody s rest).trace = 0 :=
      hrest.2
    cases herr : (runAct s a).err with
    | some e =>
      refine ⟨?_, ?_⟩
      · simp [runBody, herr, ha.1]
      · simpa [runBody, herr, quitCount] using h1
    | none =>
      refine ⟨?_, ?_⟩
      · simp [runBody, herr, ha.1, hrest.1]
      · simp [runBody, herr, ha.1, quitCount, List.countP_append, h1, h2]

/-- C3: for every caller sequence of the scoped try/finally frame of
`main()` — a successful `start()` followed by any number of actions, each of
which may succeed or throw — the acquired handle's `quit()` is observed
exactly once, whether or not an action throws, because the release sits in
the `finally` clause around the whole action sequence. -/
theorem C3_release_exactly_once (h : Handle) (acts : List Act)
    (hq : h.quitThrows = false) :
    quitCount (mainFrame (Except.ok h) acts).trace h.id = 1 := by
  have hbody := runBody_post_trace acts ⟨some h⟩ h.id
  have hstop : stop (runBody ⟨some h⟩ acts).post
      = ⟨none, ⟨none⟩, [Eff.quitCall h.id]⟩ := by
    rw [hbody.1]
    simp [stop, hq]
  have h2 : List.countP (Eff.isQuit h.id) (runBody ⟨some h⟩ acts).trace = 0 :=
    hbody.2
  simp [mainFrame, start, WebAutomation.init, hstop, quitCount,
    List.countP_append, List.countP_cons, Eff.isQuit, h2]

/-- C3 witness: a throwing first action still yields exactly one release. -/
theorem C3_release_exactly_once_witness :
    quitCount (mainFrame (Except.ok ⟨1, false⟩)
      [Act.search true "ふわふわ大福 作り方",
       Act.shot false "daifuku_search.png"]).trace 1 = 1 :=
  C3_release_exactly_once ⟨1, false⟩
    [Act.search true "ふわふわ大福 作り方", Act.shot false "daifuku_search.png"]
    rfl

/-- C4 counterexample: `stop()` is NOT exception-free on an invalid handle.
On a session whose handle's `quit()` raises, `stop()` propagates the
exception — the source has no try/except around `driver.quit()`
(`selenium_setup_guide.py` lines 228-233) — and `self.driver` even stays
set, so the session does not transition to Closed. -/
theorem C4_stop_throws_on_invalid_handle :
    (stop ⟨some ⟨1, true⟩⟩).err = some SErr.remoteFailure ∧
    (stop ⟨some ⟨1, true⟩⟩).post = ⟨some ⟨1, true⟩⟩ :=
  ⟨rfl, rfl⟩

/-- C4 amended: `stop()` on an Active session whose handle's `quit()` does
not raise releases the handle and transitions to Closed; on a Closed or
Uninitialized session it is a no-op, so `stop()` after `stop()` leaves the
state unchanged; but when `quit()` raises, the exception propagates to the
caller and the session stays Active (the code does not catch it). -/
theorem C4_stop_idempotent_when_quit_ok :
    (∀ h : Handle, h.quitThrows = false →
      stop ⟨some h⟩ = ⟨none, ⟨none⟩, [Eff.quitCall h.id]⟩) ∧
    (∀ s : Session, s.driver = none → stop s = ⟨none, s, []⟩) ∧
    (∀ h : Handle, h.quitThrows = false →
      stop (stop ⟨some h⟩).post = ⟨none, (stop ⟨some h⟩).post, []⟩) ∧
    (∀ h : Handle, h.quitThrows = true →
      (stop ⟨some h⟩).err = some SErr.remoteFailure ∧
      (stop ⟨some h⟩).post = ⟨some h⟩) := by
  refine ⟨?_, ?_, ?_, ?_⟩
  · intro h hq
    simp [stop, hq]
  · intro s hd
    obtain ⟨d⟩ := s
    simp only [Session.mk.injEq] at hd
    subst hd
    rfl
  · intro h hq
    simp [stop, hq]
  · intro h hq
    simp [stop, hq]

/-- C4 witness: the amended behaviour at concrete handles — a clean `quit()`
closes the session with one release, a second `stop()` is a no-op, and a
raising `quit()` propagates. -/
theorem C4_stop_idempotent_when_quit_ok_witness :
    stop ⟨some ⟨3, false⟩⟩ = ⟨none, ⟨none⟩, [Eff.quitCall 3]⟩ ∧
    stop (stop ⟨some ⟨3, false⟩⟩).post
      = ⟨none, (stop ⟨some ⟨3, false⟩⟩).post, []⟩ ∧
    (stop ⟨some ⟨4, true⟩⟩).err = some SErr.remoteFailure :=
  ⟨C4_stop_idempotent_when_quit_ok.1 ⟨3, false⟩ rfl,
   C4_stop_idempotent_when_quit_ok.2.2.1 ⟨3, false⟩ rfl,
   (C4_stop_idempotent_when_quit_ok.2.2.2 ⟨4, true⟩ rfl).1⟩

/-- C5 counterexample: `start()` on an Active session does NOT fail.  With
the session already holding handle 1, a second `start()` whose provisioning
returns handle 2 raises nothing, acquires the second handle, and overwrites
`self.driver` with it — `WebAutomation.start` (lines 223-226) has no
already-started check. -/
theorem C5_second_start_succeeds :
    (start (Except.ok ⟨2, false⟩) ⟨some ⟨1, false⟩⟩).err = none ∧
    (start (Except.ok ⟨2, false⟩) ⟨some ⟨1, false⟩⟩).post
      = ⟨some ⟨2, false⟩⟩ ∧
    (start (Except.ok ⟨2, false⟩) ⟨some ⟨1, false⟩⟩).trace
      = [Eff.acquire 2] :=
  ⟨rfl, rfl, rfl⟩

/-- C5 amended: calling `start()` on an Active session does not raise; it
unconditionally acquires a fresh handle and overwrites `self.driver` with
it, releasing nothing — the previously held handle is leaked. -/
theorem C5_second_start_overwrites (h1 h2 : Handle) :
    start (Except.ok h2) ⟨some h1⟩ = ⟨none, ⟨some h2⟩, [Eff.acquire h2.id]⟩ ∧
    quitCount (start (Except.ok h2) ⟨some h1⟩).trace h1.id = 0 := by
  refine ⟨rfl, ?_⟩
  simp [start, quitCount, Eff.isQuit]
